import Mathlib

namespace MiddlewareSync

/-!
# Verification of the CRM → CMS single-event reconciliation engine

Shallow embedding of `src/scripts/sync_single.js` (v2.10) and the relevant
parts of `src/lib/crm.js`.  Machine-level JS behaviour (string operations,
`Map` semantics, the retry loop, the fueled pagination loop, and the
sequentialised reconciliation run) is translated into executable Lean
definitions, and the specification's claims are settled as theorems about
those definitions.
-/

/-! ## Slug derivation (`slugify`, sync_single.js line 82)

`const slugify = txt => (txt || '').toString().toLowerCase().trim()` then four
`.replace` steps: whitespace runs to `-`, strip `[^\w-]`, collapse hyphen runs
of length at least two to one `-`, strip leading/trailing hyphen runs.

Characters are handled by code point (`Char.toNat`), matching the JS
regexes involved, which are all ASCII-exact; `toLowerCase` is modelled on
the ASCII range (the only range the `\w`-based pipeline can retain). -/

/-- The JavaScript `\s` character class (whitespace), by code point. -/
def isJsSpace (c : Char) : Bool :=
  let n := c.toNat
  decide (n = 9) || decide (n = 10) || decide (n = 11) || decide (n = 12) ||
  decide (n = 13) || decide (n = 32) || decide (n = 160) || decide (n = 5760) ||
  (decide (8192 ≤ n) && decide (n ≤ 8202)) || decide (n = 8232) ||
  decide (n = 8233) || decide (n = 8239) || decide (n = 8287) ||
  decide (n = 12288) || decide (n = 65279)

/-- The JavaScript `\w` character class: `[A-Za-z0-9_]`. -/
def isWordChar (c : Char) : Bool :=
  (decide (97 ≤ c.toNat) && decide (c.toNat ≤ 122)) ||
  (decide (65 ≤ c.toNat) && decide (c.toNat ≤ 90)) ||
  (decide (48 ≤ c.toNat) && decide (c.toNat ≤ 57)) || c == '_'

/-- `String.prototype.toLowerCase` restricted to one character (ASCII-exact). -/
def jsLowerChar (c : Char) : Char :=
  if 65 ≤ c.toNat ∧ c.toNat ≤ 90 then Char.ofNat (c.toNat + 32) else c

/-- `toLowerCase` over the whole string. -/
def jsLower (s : List Char) : List Char := s.map jsLowerChar

/-- `replace(/\s+/g, '-')`: each maximal whitespace run becomes one hyphen.
The boolean argument records whether the previous character was whitespace. -/
def wsToHyphen : List Char → Bool → List Char
  | [], _ => []
  | c :: rest, prevWs =>
    if isJsSpace c then
      if prevWs then wsToHyphen rest true else '-' :: wsToHyphen rest true
    else c :: wsToHyphen rest false

/-- `replace(/[^\w-]+/g, '')`: keep only word characters and hyphens. -/
def stripNonWord (s : List Char) : List Char :=
  s.filter (fun c => isWordChar c || c == '-')

/-- The third `.replace`: each maximal hyphen run becomes a single hyphen. -/
def collapseHyphens : List Char → Bool → List Char
  | [], _ => []
  | c :: rest, prevH =>
    if c == '-' then
      if prevH then collapseHyphens rest true else '-' :: collapseHyphens rest true
    else c :: collapseHyphens rest false

/-- `String.prototype.trim` (strips `\s` from both ends). -/
def trimWs (s : List Char) : List Char :=
  ((s.dropWhile isJsSpace).reverse.dropWhile isJsSpace).reverse

/-- `replace(/^-+|-+$/g, '')`: strip leading and trailing hyphen runs. -/
def trimHyphens (s : List Char) : List Char :=
  ((s.dropWhile (· == '-')).reverse.dropWhile (· == '-')).reverse

/-- `slugify` from sync_single.js line 82. -/
def slugify (txt : String) : String :=
  ⟨trimHyphens (collapseHyphens (stripNonWord
      (wsToHyphen (trimWs (jsLower txt.data)) false)) false)⟩

/-- The character class the spec prescribes for slugs: `[a-z0-9-]`. -/
def specSlugChar (c : Char) : Bool :=
  (decide (97 ≤ c.toNat) && decide (c.toNat ≤ 122)) ||
  (decide (48 ≤ c.toNat) && decide (c.toNat ≤ 57)) || c == '-'

/-- Reference slug composition, following the spec's words: lower-case, trim,
collapse internal whitespace runs to single hyphens, strip every character
outside `[a-z0-9-]`, collapse repeated hyphens, trim leading/trailing
hyphens. -/
def specSlug (txt : String) : String :=
  ⟨trimHyphens (collapseHyphens
      ((wsToHyphen (trimWs (jsLower txt.data)) false).filter specSlugChar) false)⟩

/-- The amended character class: `[a-z0-9_-]` (the code's `\w` keeps `_`). -/
def specSlugAmendedChar (c : Char) : Bool := specSlugChar c || c == '_'

/-- Amended reference slug composition: as `specSlug`, but retaining the
underscore as the code's `[^\w-]` stripping does. -/
def specSlugAmended (txt : String) : String :=
  ⟨trimHyphens (collapseHyphens
      ((wsToHyphen (trimWs (jsLower txt.data)) false).filter specSlugAmendedChar) false)⟩

/-! ## Paginated collection reader (`fetchAllWebflowItemsPaginated`, lines 62–76)

The server is modelled as a stream of page responses indexed by arrival
order (call number).  A response carries its `items` array and the optional
`pagination.total` field (`none` models a response without a `pagination`
object).  The JS `while (hasMore)` loop is given explicit fuel; returning
`none` for every fuel value is exactly non-termination of the loop. -/

/-- One response of `GET /collections/:id/items?limit&offset`. -/
structure PageResp (α : Type) where
  items : List α
  pagination : Option Nat
  deriving Repr, DecidableEq

/-- The body of `fetchAllWebflowItemsPaginated`: each iteration issues one
API call (`stream k`), appends a non-empty page to the accumulator and
advances `offset` by the page length, then recomputes
`hasMore = response.pagination && (offset < response.pagination.total)`. -/
def fetchLoop {α : Type} (stream : Nat → PageResp α) :
    Nat → Nat → Nat → List α → Option (List α)
  | 0, _, _, _ => none
  | fuel + 1, k, offset, acc =>
    let r := stream k
    let acc' := if r.items.length > 0 then acc ++ r.items else acc
    let offset' := if r.items.length > 0 then offset + r.items.length else offset
    let hasMore := match r.pagination with
      | some total => decide (offset' < total)
      | none => false
    if hasMore then fetchLoop stream fuel (k + 1) offset' acc' else some acc'

/-- `fetchAllWebflowItemsPaginated` with the given fuel: the loop starts at
`offset = 0` with an empty accumulator and `hasMore = true`. -/
def fetchAllWebflowItemsPaginated {α : Type} (stream : Nat → PageResp α)
    (fuel : Nat) : Option (List α) :=
  fetchLoop stream fuel 0 0 []

/-- The reader terminates on `stream` iff some finite fuel suffices. -/
def fetchTerminates {α : Type} (stream : Nat → PageResp α) : Prop :=
  ∃ fuel, (fetchAllWebflowItemsPaginated stream fuel).isSome

/-- A server that always answers with zero items but `pagination.total = 1`. -/
def emptyPageStream : Nat → PageResp Nat := fun _ => ⟨[], some 1⟩

/-- Pages consumed from call `k` on, flattened in arrival order. -/
def pagesConcat {α : Type} (stream : Nat → PageResp α) (k n : Nat) : List α :=
  (List.range n).flatMap fun j => (stream (k + j)).items

/-! ## Rate-limited API client (`callWebflowApi`, lines 16–60)

The transport is scripted as a list of HTTP outcomes consumed one per
attempt.  The loop body: pace, issue the call; on 429 increment `attempt`,
compute the wait (`retry-after` header × 1000 ms if present, else
`2 ^ attempt` seconds), throw the 429 when `attempt ≥ maxRetries`, otherwise
sleep that wait and loop; any other error is thrown immediately.  The list
of retry sleeps (in ms, excluding the fixed 1100 ms pacing delay) is
returned alongside the outcome. -/

/-- One scripted HTTP outcome for an attempt. -/
inductive WfResp where
  | ok (body : Nat)
  | rateLimited (retryAfter : Option Nat)
  | httpError (status : Nat)
  deriving Repr, DecidableEq

/-- Outcome of `callWebflowApi`:  `success` (the while loop returns),
`failure e` (the JS `throw error`), `exhausted` (out of scripted responses
or the unreachable line 59). -/
inductive CallOut where
  | success (body : Nat)
  | failure (e : WfResp)
  | exhausted
  deriving Repr, DecidableEq

/-- `retryAfter ? parseInt(retryAfter) * 1000 : (2 ** attempt) * 1000`. -/
def waitMs (attempt : Nat) (retryAfter : Option Nat) : Nat :=
  match retryAfter with
  | some r => r * 1000
  | none => 2 ^ attempt * 1000

/-- `maxRetries` of `callWebflowApi`. -/
def maxRetries : Nat := 5

/-- A list of waits is non-decreasing. -/
def nonDecreasing : List Nat → Bool
  | [] => true
  | [_] => true
  | a :: b :: rest => decide (a ≤ b) && nonDecreasing (b :: rest)

/-- The `while (attempt < maxRetries)` retry loop. -/
def callLoop : Nat → List WfResp → List Nat × CallOut
  | _, [] => ([], CallOut.exhausted)
  | attempt, r :: rest =>
    if attempt < maxRetries then
      match r with
      | WfResp.ok body => ([], CallOut.success body)
      | WfResp.httpError status => ([], CallOut.failure (WfResp.httpError status))
      | WfResp.rateLimited ra =>
        let a := attempt + 1
        let w := waitMs a ra
        if maxRetries ≤ a then ([], CallOut.failure (WfResp.rateLimited ra))
        else
          let rec_ := callLoop a rest
          (w :: rec_.1, rec_.2)
    else ([], CallOut.exhausted)

/-- `callWebflowApi` on a scripted transport, starting at `attempt = 0`. -/
def callWebflowApi (responses : List WfResp) : List Nat × CallOut :=
  callLoop 0 responses

/-! ## Data model: Webflow items, the mock store, and the action trace

`syncSingleEvent` (lines 106–233) is embedded as a sequential interpreter
over an explicit world: the Webflow collections (lists of items addressed by
collection id), the Vercel KV lock store, and a trace of every external call
issued, in order.  The `Promise.all` fan-outs of the source are serialised
in source order (locations, categories, airports), which preserves every
per-collection effect the claims speak about. -/

/-- A field value inside a Webflow item's `fieldData`. -/
inductive FVal where
  | s (v : String)
  | n (v : Int)
  | b (v : Bool)
  | ls (v : List String)
  deriving Repr, DecidableEq

/-- A `fieldData` map, as an association list in construction order. -/
abbrev FieldData : Type := List (String × FVal)

/-- `fieldData.key`: JS property access on the field-data object. -/
def fdGet (fd : FieldData) (key : String) : Option FVal :=
  (List.find? (fun p => p.1 == key) fd).map (fun p => p.2)

/-- One Webflow CMS item: item id, draft/archived flags, live (published)
state, and its field data. -/
structure WItem where
  id : String
  isDraft : Bool
  isArchived : Bool
  isLive : Bool
  fieldData : FieldData
  deriving Repr, DecidableEq

/-- The Webflow side of the world: collections keyed by collection id, plus
a counter for generating fresh item ids. -/
structure WFStore where
  colls : List (String × List WItem)
  nextId : Nat
  deriving Repr, DecidableEq

/-- The item list of a collection (empty when unknown). -/
def getColl (st : WFStore) (cid : String) : List WItem :=
  match List.find? (fun p => p.1 == cid) st.colls with
  | some p => p.2
  | none => []

/-- Replace (or add) the item list of a collection.  The new binding shadows
any earlier one; `getColl` reads the newest binding, so this is an ordinary
key-value update of the mock store. -/
def setColl (st : WFStore) (cid : String) (items : List WItem) : WFStore :=
  { st with colls := (cid, items) :: st.colls }

/-- One recorded external call. -/
inductive Action where
  | wfGet (collectionId : String)
  | wfCreate (collectionId : String) (fieldData : FieldData)
  | wfUpdate (collectionId : String) (itemId : String) (fieldData : FieldData)
  | wfPublish (collectionId : String) (itemIds : List String)
  | wfUnpublish (collectionId : String) (itemId : String)
  | wfDelete (collectionId : String) (itemId : String)
  | kvSetNx (key : String) (acquired : Bool)
  | kvDel (key : String)
  | crmGetEvents (ids : List String)
  deriving Repr, DecidableEq

/-- Calls that hit the target store (the Webflow API). -/
def isTargetStoreCall : Action → Bool
  | Action.wfGet _ => true
  | Action.wfCreate _ _ => true
  | Action.wfUpdate _ _ _ => true
  | Action.wfPublish _ _ => true
  | Action.wfUnpublish _ _ => true
  | Action.wfDelete _ _ => true
  | _ => false

/-- Calls that hit the source-of-record (the CRM). -/
def isCrmCall : Action → Bool
  | Action.crmGetEvents _ => true
  | _ => false

/-- The evolving world of one reconciliation run. -/
structure RunState where
  store : WFStore
  locks : List String
  trace : List Action
  deriving Repr, DecidableEq

/-- `fetchAllWebflowItemsPaginated(cid)` against a well-paginating store:
returns the whole collection and records the read. -/
def doGet (cid : String) (rs : RunState) : List WItem × RunState :=
  (getColl rs.store cid,
    { rs with trace := rs.trace ++ [Action.wfGet cid] })

/-- `POST /collections/:cid/items` with `isArchived:false, isDraft:false`:
appends a fresh item (not yet live) and returns its new id. -/
def doCreate (cid : String) (fd : FieldData) (rs : RunState) : String × RunState :=
  let nid := "wf" ++ toString rs.store.nextId
  let item : WItem :=
    { id := nid, isDraft := false, isArchived := false, isLive := false,
      fieldData := fd }
  (nid,
    { rs with
        store := setColl { rs.store with nextId := rs.store.nextId + 1 } cid
          (getColl rs.store cid ++ [item]),
        trace := rs.trace ++ [Action.wfCreate cid fd] })

/-- `PATCH /collections/:cid/items/:id`: replaces the item's field data;
when `setFlags` is true the request body also carries
`isArchived:false, isDraft:false` (the main-event update does, the
reference-item update does not). -/
def doPatch (cid itemId : String) (fd : FieldData) (setFlags : Bool)
    (rs : RunState) : RunState :=
  { rs with
      store := setColl rs.store cid ((getColl rs.store cid).map fun i =>
        if i.id == itemId then
          { i with fieldData := fd,
                   isDraft := if setFlags then false else i.isDraft,
                   isArchived := if setFlags then false else i.isArchived }
        else i),
      trace := rs.trace ++ [Action.wfUpdate cid itemId fd] }

/-- `POST /collections/:cid/items/publish` with a batch of item ids. -/
def doPublish (cid : String) (itemIds : List String) (rs : RunState) : RunState :=
  { rs with
      store := setColl rs.store cid ((getColl rs.store cid).map fun i =>
        if itemIds.contains i.id then { i with isLive := true } else i),
      trace := rs.trace ++ [Action.wfPublish cid itemIds] }

/-- `DELETE /collections/:cid/items/:id/live`: remove from live and move to
draft; the item stays in the collection. -/
def doUnpublishLive (cid itemId : String) (rs : RunState) : RunState :=
  { rs with
      store := setColl rs.store cid ((getColl rs.store cid).map fun i =>
        if i.id == itemId then { i with isLive := false, isDraft := true } else i),
      trace := rs.trace ++ [Action.wfUnpublish cid itemId] }

/-- `DELETE /collections/:cid/items/:id`: remove the item outright. -/
def doDelete (cid itemId : String) (rs : RunState) : RunState :=
  { rs with
      store := setColl rs.store cid
        ((getColl rs.store cid).filter fun i => !(i.id == itemId)),
      trace := rs.trace ++ [Action.wfDelete cid itemId] }

/-- `kv.set(key, 'locked', ¦ex: 60, nx: true¦)`: atomic set-if-absent; the
TTL has no observable effect inside one run and is not modelled. -/
def kvSetNx (key : String) (rs : RunState) : Bool × RunState :=
  if rs.locks.contains key then
    (false, { rs with trace := rs.trace ++ [Action.kvSetNx key false] })
  else
    (true, { rs with locks := key :: rs.locks,
                     trace := rs.trace ++ [Action.kvSetNx key true] })

/-- `kv.del(key)`. -/
def kvDel (key : String) (rs : RunState) : RunState :=
  { rs with locks := rs.locks.filter (fun k => !(k == key)),
            trace := rs.trace ++ [Action.kvDel key] }

/-- `new Map(items.map(i => [i.fieldData.f, i.id])).get(key)`: with duplicate
keys the later entry wins, so the lookup returns the id of the *last* item
whose field `f` is the string `key` (and `none` exactly when `Map.has` is
false). -/
def cacheLookup (items : List WItem) (field key : String) : Option String :=
  items.foldl
    (fun acc i => if fdGet i.fieldData field == some (FVal.s key) then some i.id else acc)
    none

/-! ## Reference resolver/cache (`upsertReferenceItem`, lines 84–98) -/

/-- A per-run reference cache: CRM sub-entity id → Webflow item id, with
JS `Map` get/set semantics (`set` overwrites, insertion order irrelevant to
`get`). -/
structure RefCache where
  entries : List (String × String)
  deriving Repr, DecidableEq

/-- `cache.get(key)` (and `cache.has(key) = (cGet …).isSome`). -/
def cGet (c : RefCache) (key : String) : Option String :=
  (List.find? (fun p => p.1 == key) c.entries).map (fun p => p.2)

/-- `cache.set(key, v)`: the new binding shadows any earlier one. -/
def cSet (c : RefCache) (key v : String) : RefCache :=
  ⟨(key, v) :: c.entries⟩

/-- `new Map(items.map(i => [i.fieldData.f, i.id]))` as a `RefCache`: later
items shadow earlier ones; items whose field `f` is absent or not a string
can never collide with a CRM string id and are dropped. -/
def buildRefCache (items : List WItem) (field : String) : RefCache :=
  ⟨items.foldl
    (fun acc i => match fdGet i.fieldData field with
      | some (FVal.s k) => (k, i.id) :: acc
      | _ => acc) []⟩

/-- `upsertReferenceItem(¦cache, collectionId, crmIdFieldSlug, crmId, name,
additionalFields¦)`: returns the resolved Webflow id (or `none` for a falsy
`crmId`), the updated cache, and the updated world. -/
def upsertReferenceItem (cache : RefCache) (collectionId crmIdFieldSlug crmId name : String)
    (additionalFields : FieldData) (rs : RunState) :
    Option String × RefCache × RunState :=
  if crmId = "" then (none, cache, rs)
  else
    let fieldData : FieldData :=
      [("name", FVal.s name), ("slug", FVal.s (slugify name)),
       (crmIdFieldSlug, FVal.s crmId)] ++ additionalFields
    match cGet cache crmId with
    | some webflowId =>
      let rs1 := doPatch collectionId webflowId fieldData false rs
      let rs2 := doPublish collectionId [webflowId] rs1
      (some webflowId, cache, rs2)
    | none =>
      let (id, rs1) := doCreate collectionId fieldData rs
      let cache1 := cSet cache crmId id
      let rs2 := doPublish collectionId [id] rs1
      (some id, cache1, rs2)

/-- Serialisation of `Promise.all(list.map(x => upsertReferenceItem(…)))`:
resolve each sub-entity in list order, threading cache and world. -/
def upsertRefList (cache : RefCache) (collectionId crmIdFieldSlug : String)
    (subs : List (String × String × FieldData)) (rs : RunState) :
    List (Option String) × RefCache × RunState :=
  match subs with
  | [] => ([], cache, rs)
  | (crmId, name, extra) :: rest =>
    let (r, cache1, rs1) :=
      upsertReferenceItem cache collectionId crmIdFieldSlug crmId name extra rs
    let (ids, cache2, rs2) := upsertRefList cache1 collectionId crmIdFieldSlug rest rs1
    (r :: ids, cache2, rs2)

/-! ## Source-of-record (CRM) data and configuration -/

/-- A CRM event location (`m8_eventlocation`). -/
structure CrmLocation where
  m8_eventlocationid : String
  m8_name : String
  m8_address1city : String
  m8_address1country : String
  deriving Repr, DecidableEq

/-- A CRM event category. -/
structure CrmCategory where
  m8_eventcategoryid : String
  m8_name : String
  deriving Repr, DecidableEq

/-- A CRM airport. -/
structure CrmAirport where
  m8_airportid : String
  m8_name : String
  m8_iataairport : String
  m8_iataairportcode : String
  m8_note : String
  m8_address1city : String
  m8_address1country : String
  deriving Repr, DecidableEq

/-- A CRM event as returned by `m8_GetEventsV1` (only published events are
returned by that endpoint). -/
structure CrmEvent where
  m8_eventid : String
  m8_name : String
  m8_startdate : String
  m8_enddate : String
  m8_startingamount : Int
  m8_drivingdays : Int
  m8_eventbookingstatuscode : Int
  m8_isflightincluded : Bool
  m8_iseventpublished : Bool
  m8_isaccommodationandcateringincluded : Bool
  m8_isfullybooked : Bool
  m8_availablevehicles : Int
  m8_eventlocation : Option CrmLocation
  m8_eventcategories : Option (List CrmCategory)
  m8_airports : Option (List CrmAirport)
  deriving Repr, DecidableEq

/-- The four `WEBFLOW_COLLECTION_ID_*` environment variables (`none` models
an absent variable; the code never validates them). -/
structure WFConfig where
  events : Option String
  locations : Option String
  categories : Option String
  airports : Option String
  deriving Repr, DecidableEq

/-- JS template-literal interpolation of a possibly-undefined variable:
an absent value becomes the literal string `undefined` in the URL. -/
def cval (v : Option String) : String :=
  match v with
  | some s => s
  | none => "undefined"

/-- The CRM credentials read by `src/lib/crm.js` (lines 6–9). -/
structure CrmConfig where
  tenantId : Option String
  clientId : Option String
  clientSecret : Option String
  baseUrl : Option String
  deriving Repr, DecidableEq

/-- The guard of `getAccessToken` (crm.js lines 40–42): all four variables
must be present, otherwise it throws before any network call. -/
def crmConfigured (c : CrmConfig) : Bool :=
  c.tenantId.isSome && c.clientId.isSome && c.clientSecret.isSome && c.baseUrl.isSome

/-! ## The reconciliation engine (`syncSingleEvent`, lines 106–233) -/

/-- An error thrown out of one run.  `crmConfig` is the
`getAccessToken` configuration error; `refError` is the `ReferenceError`
raised at line 215, where the create call is spelled `callWebfowApi` —
an identifier that does not exist. -/
inductive SyncErr where
  | crmConfig
  | refError
  deriving Repr, DecidableEq

/-- Result of one run: normal return or a propagated error. -/
inductive SyncResult where
  | ok
  | err (e : SyncErr)
  deriving Repr, DecidableEq

/-- Outcome of one run: the result together with the final world. -/
structure RunOut where
  result : SyncResult
  state : RunState
  deriving Repr, DecidableEq

/-- The create path (lines 201–224): acquire the create-lock; on failure log
and return (designed no-op).  On success the code attempts the create —
which, as written, raises `ReferenceError: callWebfowApi is not defined`
before any request is issued — and the `finally` block releases the lock. -/
def createPath (eventId : String) (rs : RunState) : RunOut :=
  let lockKey := "lock:create-event:" ++ eventId
  let (lockAcquired, rs1) := kvSetNx lockKey rs
  if lockAcquired then
    let rs2 := kvDel lockKey rs1
    { result := SyncResult.err SyncErr.refError, state := rs2 }
  else
    { result := SyncResult.ok, state := rs1 }

/-- The `fieldData` object built for the main event (line 189). -/
def eventFieldData (ev : CrmEvent) (categoryIds airportIds : List (Option String))
    (locationId : Option String) : FieldData :=
  [("name", FVal.s ev.m8_name),
   ("slug", FVal.s (slugify ev.m8_name)),
   ("eventid", FVal.s ev.m8_eventid),
   ("startdate", FVal.s ev.m8_startdate),
   ("enddate", FVal.s ev.m8_enddate),
   ("startingamount", FVal.n ev.m8_startingamount),
   ("drivingdays", FVal.n ev.m8_drivingdays),
   ("eventbookingstatuscode", FVal.n ev.m8_eventbookingstatuscode),
   ("isflightincluded", FVal.b ev.m8_isflightincluded),
   ("iseventpublished", FVal.b ev.m8_iseventpublished),
   ("isaccommodationandcateringincluded", FVal.b ev.m8_isaccommodationandcateringincluded),
   ("isfullybooked", FVal.b ev.m8_isfullybooked),
   ("isfullybookedboleantext", FVal.s (if ev.m8_isfullybooked then "true" else "false")),
   ("availablevehicles", FVal.n ev.m8_availablevehicles),
   ("categorie", FVal.ls (categoryIds.filterMap id)),
   ("airport", FVal.ls (airportIds.filterMap id)),
   ("location", FVal.ls (match locationId with | some l => [l] | none => []))]

/-- `syncSingleEvent(eventId, changeType)`.  Deterministic inputs of the
run: the Webflow configuration, the CRM configuration, the list the CRM
query would answer (`crmEventsRes?.value ?? []`), the two arguments, and
the initial world. -/
def syncSingleEvent (cfg : WFConfig) (crmCfg : CrmConfig) (crmValue : List CrmEvent)
    (eventId changeType : String) (rs : RunState) : RunOut :=
  if eventId = "" then { result := SyncResult.ok, state := rs }
  else if changeType = "Delete" then
    let (webflowEvents, rs1) := doGet (cval cfg.events) rs
    match cacheLookup webflowEvents "eventid" eventId with
    | some webflowId =>
      { result := SyncResult.ok, state := doDelete (cval cfg.events) webflowId rs1 }
    | none => { result := SyncResult.ok, state := rs1 }
  else
    let (webflowLocations, rs1) := doGet (cval cfg.locations) rs
    let (webflowCategories, rs2) := doGet (cval cfg.categories) rs1
    let (webflowAirports, rs3) := doGet (cval cfg.airports) rs2
    let (webflowEvents, rs4) := doGet (cval cfg.events) rs3
    if ¬ crmConfigured crmCfg then
      { result := SyncResult.err SyncErr.crmConfig, state := rs4 }
    else
      let rs5 := { rs4 with trace := rs4.trace ++ [Action.crmGetEvents [eventId]] }
      let crmEvents := crmValue.filter (fun e => e.m8_eventid == eventId)
      match crmEvents with
      | [] =>
        match cacheLookup webflowEvents "eventid" eventId with
        | some webflowId =>
          { result := SyncResult.ok,
            state := doUnpublishLive (cval cfg.events) webflowId rs5 }
        | none => { result := SyncResult.ok, state := rs5 }
      | ev :: _ =>
        let locationCache := buildRefCache webflowLocations "eventlocationid"
        let categoryCache := buildRefCache webflowCategories "category-id"
        let airportCache := buildRefCache webflowAirports "airportid"
        let (locationId, _, rs6) :=
          match ev.m8_eventlocation with
          | some loc =>
            upsertReferenceItem locationCache (cval cfg.locations) "eventlocationid"
              loc.m8_eventlocationid loc.m8_name
              [("address1city", FVal.s loc.m8_address1city),
               ("address1country", FVal.s loc.m8_address1country)] rs5
          | none => (none, locationCache, rs5)
        let (categoryIds, _, rs7) :=
          upsertRefList categoryCache (cval cfg.categories) "category-id"
            ((ev.m8_eventcategories.getD []).map fun cat =>
              (cat.m8_eventcategoryid, cat.m8_name, ([] : FieldData))) rs6
        let (airportIds, _, rs8) :=
          upsertRefList airportCache (cval cfg.airports) "airportid"
            ((ev.m8_airports.getD []).map fun air =>
              (air.m8_airportid, air.m8_name,
                ([("iataairport", FVal.s air.m8_iataairport),
                  ("iataairportcode", FVal.s air.m8_iataairportcode),
                  ("note", FVal.s air.m8_note),
                  ("address1city", FVal.s air.m8_address1city),
                  ("address1country", FVal.s air.m8_address1country)] : FieldData))) rs7
        let fieldData := eventFieldData ev categoryIds airportIds locationId
        match cacheLookup webflowEvents "eventid" ev.m8_eventid with
        | some webflowId =>
          let rs9 := doPatch (cval cfg.events) webflowId fieldData true rs8
          let rs10 := doPublish (cval cfg.events) [webflowId] rs9
          { result := SyncResult.ok, state := rs10 }
        | none => createPath eventId rs8

/-! ## Concrete scenarios used by counterexamples and witnesses -/

/-- Does the trace contain a `POST …/items` create on collection `cid`? -/
def createsIn (cid : String) (tr : List Action) : Bool :=
  tr.any fun a => match a with
    | Action.wfCreate c _ => c == cid
    | _ => false

/-- Does the trace contain a publish on collection `cid`? -/
def publishesIn (cid : String) (tr : List Action) : Bool :=
  tr.any fun a => match a with
    | Action.wfPublish c _ => c == cid
    | _ => false

/-- A fully-populated Webflow configuration. -/
def cfgRef : WFConfig := ⟨some "EV", some "LOC", some "CAT", some "AIR"⟩

/-- A Webflow configuration with the events collection id absent. -/
def cfgNoEvents : WFConfig := ⟨none, some "LOC", some "CAT", some "AIR"⟩

/-- Fully-populated CRM credentials. -/
def crmCfgRef : CrmConfig := ⟨some "tenant", some "client", some "secret", some "https://crm"⟩

/-- CRM credentials with the tenant id absent. -/
def crmCfgNoTenant : CrmConfig := ⟨none, some "client", some "secret", some "https://crm"⟩

/-- The spec's reference sub-entity `L1` ("Alps"). -/
def crmLocL1 : CrmLocation := ⟨"L1", "Alps", "Grenoble", "FR"⟩

/-- The spec's reference entity `E1` ("Spring Rally"), published, with
location `L1` and no categories or airports. -/
def crmEventE1 : CrmEvent :=
  ⟨"E1", "Spring Rally", "2025-05-01", "2025-05-05", 100, 3, 1,
    false, true, false, false, 5, some crmLocL1, some [], some []⟩

/-- An empty world: no collections, no locks, no trace. -/
def rsEmpty : RunState := ⟨⟨[], 0⟩, [], []⟩

/-- A Webflow events item whose `eventid` is `E1`. -/
def itemE1 : WItem := ⟨"w1", false, false, true, [("eventid", FVal.s "E1")]⟩

/-- A world whose events collection holds exactly `itemE1`. -/
def rsWithE1 : RunState := ⟨⟨[("EV", [itemE1])], 5⟩, [], []⟩

/-- The items of the events collection whose identity field matches. -/
def eventMatches (items : List WItem) (field key : String) : List WItem :=
  items.filter (fun i => fdGet i.fieldData field == some (FVal.s key))

/-- A world in which another invocation already holds the `E1` create-lock. -/
def rsLockedE1 : RunState := ⟨⟨[], 0⟩, ["lock:create-event:E1"], []⟩

/-- A reference cache holding `L1 ↦ w9`. -/
def cacheL1 : RefCache := ⟨[("L1", "w9")]⟩

/-! ## Lemmas and claim theorems -/

lemma getColl_setColl (st : WFStore) (cid : String) (items : List WItem) :
    getColl (setColl st cid items) cid = items := by
  simp [getColl, setColl, List.find?_cons]

lemma getColl_setColl_ne (st : WFStore) (cid : String) (items : List WItem)
    (cid2 : String) (h : cid2 ≠ cid) :
    getColl (setColl st cid items) cid2 = getColl st cid2 := by
  have hb : (cid == cid2) = false := by simpa using fun he => h he.symm
  simp [getColl, setColl, List.find?_cons, hb]

lemma locks_filter_not_contains (l : List String) (key : String) :
    ((l.filter (fun k => !(k == key))).contains key) = false := by
  induction l with
  | nil => rfl
  | cons a l ih =>
    by_cases ha : (a == key) = true
    · simp [List.filter_cons, ha, ih]
    · have ha' : (a == key) = false := by simpa using ha
      have hk : (key == a) = false := by
        simp only [beq_eq_false_iff_ne] at ha' ⊢
        exact fun he => ha' he.symm
      simp [List.filter_cons, ha', List.contains_cons, hk, ih]
      exact fun he => by rw [he] at hk; simp at hk


/-- No output of `jsLowerChar` is an upper-case ASCII letter. -/
lemma jsLowerChar_not_upper (c : Char) :
    ¬ (65 ≤ (jsLowerChar c).toNat ∧ (jsLowerChar c).toNat ≤ 90) := by
  unfold jsLowerChar
  split
  · rename_i h
    obtain ⟨h1, h2⟩ := h
    set n := c.toNat with hn
    interval_cases n <;> decide
  · rename_i h
    exact h

/-- On characters that are not upper-case ASCII, the code's retained class
`[\w-]` coincides with the amended spec class `[a-z0-9_-]`. -/
lemma word_eq_amended_of_not_upper (c : Char)
    (h : ¬ (65 ≤ c.toNat ∧ c.toNat ≤ 90)) :
    (isWordChar c || c == '-') = specSlugAmendedChar c := by
  have hb : (decide (65 ≤ c.toNat) && decide (c.toNat ≤ 90)) = false := by
    simp only [Bool.and_eq_false_iff, decide_eq_false_iff_not]
    omega
  simp only [isWordChar, specSlugAmendedChar, specSlugChar, hb]
  cases h1 : (decide (97 ≤ c.toNat) && decide (c.toNat ≤ 122)) <;>
    cases h2 : (decide (48 ≤ c.toNat) && decide (c.toNat ≤ 57)) <;>
      cases h3 : (c == '_') <;> cases h4 : (c == '-') <;> rfl

/-- Every character produced by `wsToHyphen` is a hyphen or comes from the
input. -/
lemma mem_wsToHyphen (l : List Char) (b : Bool) (x : Char)
    (hx : x ∈ wsToHyphen l b) : x = '-' ∨ x ∈ l := by
  induction l generalizing b with
  | nil => simp only [wsToHyphen, List.not_mem_nil] at hx
  | cons c rest ih =>
    simp only [wsToHyphen] at hx
    by_cases hc : isJsSpace c
    · rw [if_pos hc] at hx
      cases b with
      | true =>
        rw [if_pos rfl] at hx
        rcases ih true hx with h | h
        · exact Or.inl h
        · exact Or.inr (List.mem_cons_of_mem _ h)
      | false =>
        rw [if_neg (by simp), List.mem_cons] at hx
        rcases hx with h | h
        · exact Or.inl h
        · rcases ih true h with h2 | h2
          · exact Or.inl h2
          · exact Or.inr (List.mem_cons_of_mem _ h2)
    · rw [if_neg hc, List.mem_cons] at hx
      rcases hx with h | h
      · exact Or.inr (by simp [h])
      · rcases ih false h with h2 | h2
        · exact Or.inl h2
        · exact Or.inr (List.mem_cons_of_mem _ h2)

/-- `trimWs` only removes characters. -/
lemma mem_trimWs (l : List Char) (x : Char) (hx : x ∈ trimWs l) : x ∈ l := by
  unfold trimWs at hx
  rw [List.mem_reverse] at hx
  have h1 := (List.dropWhile_sublist (l := (l.dropWhile isJsSpace).reverse)
      (p := isJsSpace)).subset hx
  rw [List.mem_reverse] at h1
  exact (List.dropWhile_sublist (l := l) (p := isJsSpace)).subset h1

/-- The code's slug pipeline equals the amended reference composition. -/
theorem slugify_eq_specSlugAmended (s : String) : slugify s = specSlugAmended s := by
  unfold slugify specSlugAmended stripNonWord
  congr 1
  congr 1
  congr 1
  apply List.filter_congr
  intro x hx
  rcases mem_wsToHyphen _ _ _ hx with h | h
  · subst h
    apply word_eq_amended_of_not_upper
    decide
  · have h2 := mem_trimWs _ _ h
    simp only [jsLower, List.mem_map] at h2
    obtain ⟨c, _, hc⟩ := h2
    subst hc
    exact word_eq_amended_of_not_upper _ (jsLowerChar_not_upper c)

/-- C2 counterexample: the code keeps the underscore (`\w`), the spec's
reference composition (`[a-z0-9-]`) strips it, so the two differ at `"a_b"`. -/
theorem c2_slug_counterexample : slugify "a_b" ≠ specSlug "a_b" := by decide

/-- C2 (amended): for every input string, `slugify` equals the reference
composition amended to retain the underscore (character class `[a-z0-9_-]`);
it is a pure function of its argument, and on the spec's example
`slugify "Alpine Tour — 2025!" = "alpine-tour-2025"`. -/
theorem c2_slugify_spec (s : String) :
    slugify s = specSlugAmended s ∧
    slugify "Alpine Tour — 2025!" = "alpine-tour-2025" := by
  refine ⟨slugify_eq_specSlugAmended s, ?_⟩
  decide

lemma fetchLoop_emptyPageStream (fuel k : Nat) (acc : List Nat) :
    fetchLoop emptyPageStream fuel k 0 acc = none := by
  induction fuel generalizing k acc with
  | zero => rfl
  | succ n ih => simpa [fetchLoop, emptyPageStream] using ih (k + 1) acc

/-- C3 counterexample: the reader does **not** terminate on every response
sequence.  A page with zero items does not stop the loop: when the server
keeps answering `items = []` with `pagination.total = 1`, the offset never
advances, `hasMore` stays true, and the loop runs forever. -/
theorem c3_pagination_counterexample : ¬ fetchTerminates emptyPageStream := by
  rintro ⟨fuel, h⟩
  rw [fetchAllWebflowItemsPaginated, fetchLoop_emptyPageStream] at h
  simp at h

lemma pagesConcat_zero {α : Type} (stream : Nat → PageResp α) (k : Nat) :
    pagesConcat stream k 0 = [] := rfl

lemma pagesConcat_succ {α : Type} (stream : Nat → PageResp α) (k n : Nat) :
    pagesConcat stream k (n + 1) = (stream k).items ++ pagesConcat stream (k + 1) n := by
  unfold pagesConcat
  rw [List.range_succ_eq_map]
  simp only [List.flatMap_cons, Nat.add_zero, List.flatMap_map]
  congr 1
  apply List.flatMap_congr
  intro x _
  have hx : k + (x + 1) = k + 1 + x := by omega
  simp only [Nat.succ_eq_add_one, hx]

/-- Whatever the loop returns is the accumulator followed by the consumed
pages, concatenated in arrival order. -/
lemma fetchLoop_concat {α : Type} (stream : Nat → PageResp α)
    (fuel k offset : Nat) (acc res : List α)
    (h : fetchLoop stream fuel k offset acc = some res) :
    ∃ n, res = acc ++ pagesConcat stream k n := by
  induction fuel generalizing k offset acc with
  | zero => simp [fetchLoop] at h
  | succ m ih =>
    rw [fetchLoop] at h
    by_cases hne : (stream k).items.length > 0
    · simp only [hne, if_true] at h
      set hm := (match (stream k).pagination with
        | some total => decide (offset + (stream k).items.length < total)
        | none => false) with hhm
      by_cases hb : hm = true
      · rw [if_pos hb] at h
        obtain ⟨n, hn⟩ := ih (k + 1) (offset + (stream k).items.length)
          (acc ++ (stream k).items) h
        refine ⟨n + 1, ?_⟩
        rw [hn, pagesConcat_succ, List.append_assoc]
      · rw [if_neg hb] at h
        refine ⟨1, ?_⟩
        have : res = acc ++ (stream k).items := by
          simpa using h.symm
        rw [this, pagesConcat_succ, pagesConcat_zero, List.append_nil]
    · simp only [hne, if_false] at h
      set hm := (match (stream k).pagination with
        | some total => decide (offset < total)
        | none => false) with hhm
      by_cases hb : hm = true
      · rw [if_pos hb] at h
        obtain ⟨n, hn⟩ := ih (k + 1) offset acc h
        refine ⟨n + 1, ?_⟩
        have hitems : (stream k).items = [] := by
          cases hi : (stream k).items with
          | nil => rfl
          | cons a l => rw [hi] at hne; simp at hne
        rw [hn, pagesConcat_succ, hitems, List.nil_append]
      · rw [if_neg hb] at h
        refine ⟨0, ?_⟩
        have : res = acc := by simpa using h.symm
        rw [this, pagesConcat_zero, List.append_nil]

/-- With a fixed reported total and no empty pages, the loop terminates
within `total - offset` further iterations. -/
lemma fetchLoop_total_isSome {α : Type} (stream : Nat → PageResp α) (total : Nat)
    (hT : ∀ k, (stream k).pagination = some total)
    (hne : ∀ k, (stream k).items ≠ []) :
    ∀ fuel k offset acc, total ≤ offset + fuel →
      (fetchLoop stream (fuel + 1) k offset acc).isSome := by
  intro fuel
  induction fuel with
  | zero =>
    intro k offset acc hle
    have hlen : (stream k).items.length > 0 := List.length_pos.mpr (hne k)
    rw [fetchLoop]
    simp only [hlen, if_true, hT k]
    rw [if_neg (by simp; omega)]
    simp
  | succ m ih =>
    intro k offset acc hle
    have hlen : (stream k).items.length > 0 := List.length_pos.mpr (hne k)
    rw [fetchLoop]
    simp only [hlen, if_true, hT k]
    by_cases hlt : offset + (stream k).items.length < total
    · rw [if_pos (by simpa using hlt)]
      exact ih (k + 1) (offset + (stream k).items.length)
        (acc ++ (stream k).items) (by omega)
    · rw [if_neg (by simpa using hlt)]
      simp

/-- C3 (amended): the reader stops when the cumulative count read reaches the
reported total or when a response lacks the `pagination` field — a zero-item
page by itself does *not* stop the loop.  Under a server that reports a fixed
total and never returns an empty page, the reader terminates (fuel
`total + 1` suffices) and returns the pages concatenated in arrival order. -/
theorem c3_pagination_spec {α : Type} (stream : Nat → PageResp α) (total : Nat)
    (hT : ∀ k, (stream k).pagination = some total)
    (hne : ∀ k, (stream k).items ≠ []) :
    ∃ n, fetchAllWebflowItemsPaginated stream (total + 1) =
      some (pagesConcat stream 0 n) := by
  have hs := fetchLoop_total_isSome stream total hT hne total 0 0 [] (by omega)
  rw [Option.isSome_iff_exists] at hs
  obtain ⟨res, hres⟩ := hs
  obtain ⟨n, hn⟩ := fetchLoop_concat stream (total + 1) 0 0 [] res hres
  refine ⟨n, ?_⟩
  rw [fetchAllWebflowItemsPaginated, hres, hn, List.nil_append]

/-- Witness for C3 (amended): two pages of one item each with total 2 are
read to completion and concatenated in order. -/
theorem c3_pagination_spec_witness :
    (∀ k, ((fun i => (⟨[10 * i], some 2⟩ : PageResp Nat)) k).pagination = some 2) ∧
    (∀ k, ((fun i => (⟨[10 * i], some 2⟩ : PageResp Nat)) k).items ≠ []) ∧
    ∃ n, fetchAllWebflowItemsPaginated (fun i => (⟨[10 * i], some 2⟩ : PageResp Nat)) 3 =
      some (pagesConcat (fun i => (⟨[10 * i], some 2⟩ : PageResp Nat)) 0 n) :=
  ⟨fun _ => rfl, fun _ => by simp,
    c3_pagination_spec (fun i => (⟨[10 * i], some 2⟩ : PageResp Nat)) 2
      (fun _ => rfl) (fun _ => by simp)⟩

/-- C5 counterexample: three consecutive 429s followed by a success do *not*
always produce non-decreasing waits.  When the first 429 carries
`retry-after: 100` and the later ones carry no header, the waits are
100 000 ms, 4 000 ms, 8 000 ms — strictly decreasing at the second sleep —
even though the call does succeed on the fourth attempt. -/
theorem c5_backoff_counterexample :
    (callWebflowApi [WfResp.rateLimited (some 100), WfResp.rateLimited none,
        WfResp.rateLimited none, WfResp.ok 7]).2 = CallOut.success 7 ∧
    (callWebflowApi [WfResp.rateLimited (some 100), WfResp.rateLimited none,
        WfResp.rateLimited none, WfResp.ok 7]).1 = [100000, 4000, 8000] ∧
    nonDecreasing
      (callWebflowApi [WfResp.rateLimited (some 100), WfResp.rateLimited none,
        WfResp.rateLimited none, WfResp.ok 7]).1 = false := by
  refine ⟨by decide, by decide, ?_⟩
  decide

/-- C5 (amended): three consecutive 429s followed by a success yield exactly
3 retry sleeps, each wait being `retry-after × 1000` ms when the header is
present and `2 ^ attempt` seconds otherwise, and the call returns the
successful response; the waits are non-decreasing (2 s, 4 s, 8 s) whenever no
`retry-after` header is present, but mixed headers can make them decrease.
Five consecutive 429s surface the underlying 429 as a failure with no sixth
attempt: the result is independent of any further scripted responses. -/
theorem c5_backoff_spec (ra1 ra2 ra3 : Option Nat) (body : Nat)
    (rest : List WfResp) :
    callWebflowApi [WfResp.rateLimited ra1, WfResp.rateLimited ra2,
        WfResp.rateLimited ra3, WfResp.ok body] =
      ([waitMs 1 ra1, waitMs 2 ra2, waitMs 3 ra3], CallOut.success body) ∧
    (ra1 = none → ra2 = none → ra3 = none →
      callWebflowApi [WfResp.rateLimited ra1, WfResp.rateLimited ra2,
          WfResp.rateLimited ra3, WfResp.ok body] =
        ([2000, 4000, 8000], CallOut.success body) ∧
      nonDecreasing [2000, 4000, 8000] = true) ∧
    callWebflowApi (List.replicate 5 (WfResp.rateLimited none) ++ rest) =
      ([2000, 4000, 8000, 16000], CallOut.failure (WfResp.rateLimited none)) := by
  refine ⟨?_, ?_, ?_⟩
  · simp [callWebflowApi, callLoop, maxRetries, waitMs]
  · rintro rfl rfl rfl
    exact ⟨by simp [callWebflowApi, callLoop, maxRetries, waitMs], by decide⟩
  · simp [callWebflowApi, callLoop, maxRetries, waitMs, List.replicate]

/-- Witness for C5 (amended), at concrete headers (none) and a concrete
transport tail: 3 sleeps of 2 s, 4 s, 8 s then success; five 429s fail even
though a success is scripted sixth. -/
theorem c5_backoff_spec_witness :
    (callWebflowApi [WfResp.rateLimited none, WfResp.rateLimited none,
        WfResp.rateLimited none, WfResp.ok 42] =
      ([waitMs 1 none, waitMs 2 none, waitMs 3 none], CallOut.success 42) ∧
    (none = (none : Option Nat) → none = (none : Option Nat) →
        none = (none : Option Nat) →
      callWebflowApi [WfResp.rateLimited none, WfResp.rateLimited none,
          WfResp.rateLimited none, WfResp.ok 42] =
        ([2000, 4000, 8000], CallOut.success 42) ∧
      nonDecreasing [2000, 4000, 8000] = true) ∧
    callWebflowApi (List.replicate 5 (WfResp.rateLimited none) ++ [WfResp.ok 42]) =
      ([2000, 4000, 8000, 16000], CallOut.failure (WfResp.rateLimited none))) :=
  c5_backoff_spec none none none 42 [WfResp.ok 42]

/-- C1: in the reference scenario (source entity `E1` published with location
`L1`, no pre-existing items, lock free) the run creates and publishes the
`L1` reference item, acquires the create-lock — and then fails with the
`ReferenceError` of line 215 (`callWebfowApi`, a misspelling of
`callWebflowApi`): no event item is ever created or published, the events
collection stays empty, and the error propagates, contradicting the
documented create+publish step.  The lock is still released by `finally`. -/
theorem c1_create_code_bug_run :
    (syncSingleEvent cfgRef crmCfgRef [crmEventE1] "E1" "Update" rsEmpty).result
        = SyncResult.err SyncErr.refError ∧
    createsIn "LOC"
      (syncSingleEvent cfgRef crmCfgRef [crmEventE1] "E1" "Update" rsEmpty).state.trace = true ∧
    publishesIn "LOC"
      (syncSingleEvent cfgRef crmCfgRef [crmEventE1] "E1" "Update" rsEmpty).state.trace = true ∧
    createsIn "EV"
      (syncSingleEvent cfgRef crmCfgRef [crmEventE1] "E1" "Update" rsEmpty).state.trace = false ∧
    publishesIn "EV"
      (syncSingleEvent cfgRef crmCfgRef [crmEventE1] "E1" "Update" rsEmpty).state.trace = false ∧
    getColl (syncSingleEvent cfgRef crmCfgRef [crmEventE1] "E1" "Update" rsEmpty).state.store "EV"
        = [] ∧
    (syncSingleEvent cfgRef crmCfgRef [crmEventE1] "E1" "Update" rsEmpty).state.trace
        = [Action.wfGet "LOC", Action.wfGet "CAT", Action.wfGet "AIR", Action.wfGet "EV",
           Action.crmGetEvents ["E1"],
           Action.wfCreate "LOC"
             [("name", FVal.s "Alps"), ("slug", FVal.s "alps"),
              ("eventlocationid", FVal.s "L1"),
              ("address1city", FVal.s "Grenoble"), ("address1country", FVal.s "FR")],
           Action.wfPublish "LOC" ["wf0"],
           Action.kvSetNx "lock:create-event:E1" true,
           Action.kvDel "lock:create-event:E1"] := by
  decide

/-- C4 counterexample: with `WEBFLOW_COLLECTION_ID_EVENTS` absent the run is
not aborted at startup — a `GET` against the target store is still issued,
with the literal string `undefined` interpolated into the path, and the run
returns without surfacing any configuration failure. -/
theorem c4_missing_config_counterexample :
    (syncSingleEvent cfgNoEvents crmCfgRef [] "E1" "Delete" rsEmpty).result = SyncResult.ok ∧
    (syncSingleEvent cfgNoEvents crmCfgRef [] "E1" "Delete" rsEmpty).state.trace
        = [Action.wfGet "undefined"] ∧
    ((syncSingleEvent cfgNoEvents crmCfgRef [] "E1" "Delete" rsEmpty).state.trace.any
        isTargetStoreCall) = true := by
  decide

/-- C4 (amended): configuration is *not* validated at startup.  Missing
Webflow collection ids lead to target-store calls with `undefined` in the
path (see the counterexample); missing CRM credentials surface as an error
thrown by `getAccessToken`'s guard at the first CRM access — after the four
target-store reads have already been issued, but before any source-of-record
call is attempted. -/
theorem c4_missing_crm_spec (cfg : WFConfig) (crmCfg : CrmConfig)
    (crmValue : List CrmEvent) (eventId changeType : String) (rs : RunState)
    (h1 : eventId ≠ "") (h2 : changeType ≠ "Delete")
    (h3 : crmConfigured crmCfg = false) :
    syncSingleEvent cfg crmCfg crmValue eventId changeType rs =
      { result := SyncResult.err SyncErr.crmConfig,
        state := { store := rs.store, locks := rs.locks,
                   trace := rs.trace ++ [Action.wfGet (cval cfg.locations),
                     Action.wfGet (cval cfg.categories),
                     Action.wfGet (cval cfg.airports),
                     Action.wfGet (cval cfg.events)] } } ∧
    (syncSingleEvent cfg crmCfg crmValue eventId changeType rs).state.trace.filter
        isCrmCall = rs.trace.filter isCrmCall := by
  have hrun : syncSingleEvent cfg crmCfg crmValue eventId changeType rs =
      { result := SyncResult.err SyncErr.crmConfig,
        state := { store := rs.store, locks := rs.locks,
                   trace := rs.trace ++ [Action.wfGet (cval cfg.locations),
                     Action.wfGet (cval cfg.categories),
                     Action.wfGet (cval cfg.airports),
                     Action.wfGet (cval cfg.events)] } } := by
    unfold syncSingleEvent
    rw [if_neg h1, if_neg h2]
    simp [doGet, h3]
  refine ⟨hrun, ?_⟩
  rw [hrun]
  simp [isCrmCall]

/-- Witness for C4 (amended): a concrete run with the CRM tenant id missing
reads the four collections, then fails with the configuration error without
ever calling the CRM. -/
theorem c4_missing_crm_spec_witness :
    ("E1" : String) ≠ "" ∧ ("Update" : String) ≠ "Delete" ∧
    crmConfigured crmCfgNoTenant = false ∧
    (syncSingleEvent cfgRef crmCfgNoTenant [] "E1" "Update" rsWithE1 =
      { result := SyncResult.err SyncErr.crmConfig,
        state := { store := rsWithE1.store, locks := rsWithE1.locks,
                   trace := rsWithE1.trace ++ [Action.wfGet (cval cfgRef.locations),
                     Action.wfGet (cval cfgRef.categories),
                     Action.wfGet (cval cfgRef.airports),
                     Action.wfGet (cval cfgRef.events)] } } ∧
     (syncSingleEvent cfgRef crmCfgNoTenant [] "E1" "Update" rsWithE1).state.trace.filter
        isCrmCall = rsWithE1.trace.filter isCrmCall) :=
  ⟨by decide, by decide, by decide,
    c4_missing_crm_spec cfgRef crmCfgNoTenant [] "E1" "Update" rsWithE1
      (by decide) (by decide) (by decide)⟩

/-- Reduction of a `Delete` run: read the events collection, then delete the
matching item or do nothing. -/
lemma syncSingleEvent_delete_eq (cfg : WFConfig) (crmCfg : CrmConfig)
    (crmValue : List CrmEvent) (eventId : String) (rs : RunState)
    (h1 : eventId ≠ "") :
    syncSingleEvent cfg crmCfg crmValue eventId "Delete" rs =
      match cacheLookup (getColl rs.store (cval cfg.events)) "eventid" eventId with
      | some webflowId =>
        { result := SyncResult.ok,
          state := doDelete (cval cfg.events) webflowId
            { store := rs.store, locks := rs.locks,
              trace := rs.trace ++ [Action.wfGet (cval cfg.events)] } }
      | none =>
        { result := SyncResult.ok,
          state := { store := rs.store, locks := rs.locks,
                     trace := rs.trace ++ [Action.wfGet (cval cfg.events)] } } := by
  unfold syncSingleEvent
  rw [if_neg h1, if_pos rfl]
  simp [doGet]

/-- Reduction of a Create/Update run whose source query returns nothing:
read the four collections, query the CRM, then unpublish the matching item
or do nothing. -/
lemma syncSingleEvent_absent_eq (cfg : WFConfig) (crmCfg : CrmConfig)
    (crmValue : List CrmEvent) (eventId changeType : String) (rs : RunState)
    (h1 : eventId ≠ "") (h2 : changeType ≠ "Delete")
    (h3 : crmConfigured crmCfg = true)
    (h4 : crmValue.filter (fun e => e.m8_eventid == eventId) = []) :
    syncSingleEvent cfg crmCfg crmValue eventId changeType rs =
      match cacheLookup (getColl rs.store (cval cfg.events)) "eventid" eventId with
      | some webflowId =>
        { result := SyncResult.ok,
          state := doUnpublishLive (cval cfg.events) webflowId
            { store := rs.store, locks := rs.locks,
              trace := rs.trace ++ [Action.wfGet (cval cfg.locations),
                Action.wfGet (cval cfg.categories), Action.wfGet (cval cfg.airports),
                Action.wfGet (cval cfg.events), Action.crmGetEvents [eventId]] } }
      | none =>
        { result := SyncResult.ok,
          state := { store := rs.store, locks := rs.locks,
                     trace := rs.trace ++ [Action.wfGet (cval cfg.locations),
                       Action.wfGet (cval cfg.categories), Action.wfGet (cval cfg.airports),
                       Action.wfGet (cval cfg.events), Action.crmGetEvents [eventId]] } } := by
  unfold syncSingleEvent
  rw [if_neg h1, if_neg h2]
  simp [doGet, h3, h4]

/-- C6: for a Create/Update run whose source query does not return the
entity, a matching TargetItem is unpublished — removed from live and moved
to draft by an in-place map over the collection, which deletes nothing (the
collection keeps its length) — and when no TargetItem matches, the run
changes nothing (store untouched, trace holds only the reads and the CRM
query). -/
theorem c6_unpublish_not_delete (cfg : WFConfig) (crmCfg : CrmConfig)
    (crmValue : List CrmEvent) (eventId changeType : String) (rs : RunState)
    (h1 : eventId ≠ "") (h2 : changeType = "Create" ∨ changeType = "Update")
    (h3 : crmConfigured crmCfg = true)
    (h4 : crmValue.filter (fun e => e.m8_eventid == eventId) = []) :
    (syncSingleEvent cfg crmCfg crmValue eventId changeType rs).result = SyncResult.ok ∧
    (∀ wid, cacheLookup (getColl rs.store (cval cfg.events)) "eventid" eventId = some wid →
      syncSingleEvent cfg crmCfg crmValue eventId changeType rs =
        { result := SyncResult.ok,
          state := { store := setColl rs.store (cval cfg.events)
                       ((getColl rs.store (cval cfg.events)).map fun i =>
                         if i.id == wid then { i with isLive := false, isDraft := true }
                         else i),
                     locks := rs.locks,
                     trace := rs.trace ++ [Action.wfGet (cval cfg.locations),
                       Action.wfGet (cval cfg.categories), Action.wfGet (cval cfg.airports),
                       Action.wfGet (cval cfg.events), Action.crmGetEvents [eventId],
                       Action.wfUnpublish (cval cfg.events) wid] } } ∧
      (getColl (syncSingleEvent cfg crmCfg crmValue eventId changeType rs).state.store
          (cval cfg.events)).length = (getColl rs.store (cval cfg.events)).length) ∧
    (cacheLookup (getColl rs.store (cval cfg.events)) "eventid" eventId = none →
      syncSingleEvent cfg crmCfg crmValue eventId changeType rs =
        { result := SyncResult.ok,
          state := { store := rs.store, locks := rs.locks,
                     trace := rs.trace ++ [Action.wfGet (cval cfg.locations),
                       Action.wfGet (cval cfg.categories), Action.wfGet (cval cfg.airports),
                       Action.wfGet (cval cfg.events), Action.crmGetEvents [eventId]] } }) := by
  have h2' : changeType ≠ "Delete" := by
    rcases h2 with h | h <;> (rw [h]; decide)
  have hrun := syncSingleEvent_absent_eq cfg crmCfg crmValue eventId changeType rs h1 h2' h3 h4
  cases hL : cacheLookup (getColl rs.store (cval cfg.events)) "eventid" eventId with
  | none =>
    rw [hL] at hrun
    refine ⟨by rw [hrun], ?_, fun _ => hrun⟩
    intro wid hw
    cases hw
  | some wid0 =>
    rw [hL] at hrun
    refine ⟨by rw [hrun], ?_, ?_⟩
    · intro wid hw
      cases hw
      constructor
      · rw [hrun]
        simp [doUnpublishLive, List.append_assoc]
      · rw [hrun]
        simp [doUnpublishLive, getColl_setColl]
    · intro hw
      cases hw

/-- Witness for C6: a concrete matching item is moved to draft and stays in
the collection; the collection length is unchanged. -/
theorem c6_unpublish_not_delete_witness :
    ("E1" : String) ≠ "" ∧
    (("Update" : String) = "Create" ∨ ("Update" : String) = "Update") ∧
    crmConfigured crmCfgRef = true ∧
    ([] : List CrmEvent).filter (fun e => e.m8_eventid == "E1") = [] ∧
    ((syncSingleEvent cfgRef crmCfgRef [] "E1" "Update" rsWithE1).result = SyncResult.ok ∧
     (∀ wid, cacheLookup (getColl rsWithE1.store (cval cfgRef.events)) "eventid" "E1"
          = some wid →
        syncSingleEvent cfgRef crmCfgRef [] "E1" "Update" rsWithE1 =
          { result := SyncResult.ok,
            state := { store := setColl rsWithE1.store (cval cfgRef.events)
                         ((getColl rsWithE1.store (cval cfgRef.events)).map fun i =>
                           if i.id == wid then { i with isLive := false, isDraft := true }
                           else i),
                       locks := rsWithE1.locks,
                       trace := rsWithE1.trace ++ [Action.wfGet (cval cfgRef.locations),
                         Action.wfGet (cval cfgRef.categories),
                         Action.wfGet (cval cfgRef.airports),
                         Action.wfGet (cval cfgRef.events), Action.crmGetEvents ["E1"],
                         Action.wfUnpublish (cval cfgRef.events) wid] } } ∧
        (getColl (syncSingleEvent cfgRef crmCfgRef [] "E1" "Update" rsWithE1).state.store
            (cval cfgRef.events)).length
          = (getColl rsWithE1.store (cval cfgRef.events)).length) ∧
     (cacheLookup (getColl rsWithE1.store (cval cfgRef.events)) "eventid" "E1" = none →
        syncSingleEvent cfgRef crmCfgRef [] "E1" "Update" rsWithE1 =
          { result := SyncResult.ok,
            state := { store := rsWithE1.store, locks := rsWithE1.locks,
                       trace := rsWithE1.trace ++ [Action.wfGet (cval cfgRef.locations),
                         Action.wfGet (cval cfgRef.categories),
                         Action.wfGet (cval cfgRef.airports),
                         Action.wfGet (cval cfgRef.events),
                         Action.crmGetEvents ["E1"]] } })) :=
  ⟨by decide, Or.inr rfl, by decide, by decide,
    c6_unpublish_not_delete cfgRef crmCfgRef [] "E1" "Update" rsWithE1
      (by decide) (Or.inr rfl) (by decide) (by decide)⟩

/-- C10: a `Delete` run touches only the events collection — its trace is
exactly one read of the events collection, optionally followed by one delete
in the events collection; it never calls the CRM, never acquires or releases
the create-lock (the lock store is unchanged and no kv action is traced),
and every other collection id reads back unchanged. -/
theorem c10_delete_frame (cfg : WFConfig) (crmCfg : CrmConfig)
    (crmValue : List CrmEvent) (eventId : String) (rs : RunState)
    (h1 : eventId ≠ "") :
    (syncSingleEvent cfg crmCfg crmValue eventId "Delete" rs).state.locks = rs.locks ∧
    ((syncSingleEvent cfg crmCfg crmValue eventId "Delete" rs).state.trace
        = rs.trace ++ [Action.wfGet (cval cfg.events)] ∨
      ∃ wid, cacheLookup (getColl rs.store (cval cfg.events)) "eventid" eventId = some wid ∧
        (syncSingleEvent cfg crmCfg crmValue eventId "Delete" rs).state.trace
          = rs.trace ++ [Action.wfGet (cval cfg.events),
              Action.wfDelete (cval cfg.events) wid]) ∧
    (∀ cid2, cid2 ≠ cval cfg.events →
      getColl (syncSingleEvent cfg crmCfg crmValue eventId "Delete" rs).state.store cid2
        = getColl rs.store cid2) ∧
    (syncSingleEvent cfg crmCfg crmValue eventId "Delete" rs).state.trace.filter isCrmCall
      = rs.trace.filter isCrmCall := by
  have hrun := syncSingleEvent_delete_eq cfg crmCfg crmValue eventId rs h1
  cases hL : cacheLookup (getColl rs.store (cval cfg.events)) "eventid" eventId with
  | none =>
    rw [hL] at hrun
    rw [hrun]
    refine ⟨rfl, Or.inl rfl, fun cid2 _ => rfl, ?_⟩
    simp [isCrmCall]
  | some wid0 =>
    rw [hL] at hrun
    rw [hrun]
    refine ⟨rfl, Or.inr ⟨wid0, rfl, ?_⟩, ?_, ?_⟩
    · simp [doDelete, List.append_assoc]
    · intro cid2 hne
      simp [doDelete, getColl_setColl_ne _ _ _ _ hne]
    · simp [doDelete, isCrmCall]

/-- Witness for C10: the concrete `Delete` run on a store holding `itemE1`
leaves the locks unchanged, reads and deletes only in the events collection,
leaves every other collection unchanged, and never calls the CRM. -/
theorem c10_delete_frame_witness :
    ("E1" : String) ≠ "" ∧
    ((syncSingleEvent cfgRef crmCfgRef [] "E1" "Delete" rsWithE1).state.locks
        = rsWithE1.locks ∧
    ((syncSingleEvent cfgRef crmCfgRef [] "E1" "Delete" rsWithE1).state.trace
        = rsWithE1.trace ++ [Action.wfGet (cval cfgRef.events)] ∨
      ∃ wid, cacheLookup (getColl rsWithE1.store (cval cfgRef.events)) "eventid" "E1"
          = some wid ∧
        (syncSingleEvent cfgRef crmCfgRef [] "E1" "Delete" rsWithE1).state.trace
          = rsWithE1.trace ++ [Action.wfGet (cval cfgRef.events),
              Action.wfDelete (cval cfgRef.events) wid]) ∧
    (∀ cid2, cid2 ≠ cval cfgRef.events →
      getColl (syncSingleEvent cfgRef crmCfgRef [] "E1" "Delete" rsWithE1).state.store cid2
        = getColl rsWithE1.store cid2) ∧
    (syncSingleEvent cfgRef crmCfgRef [] "E1" "Delete" rsWithE1).state.trace.filter isCrmCall
      = rsWithE1.trace.filter isCrmCall) :=
  ⟨by decide, c10_delete_frame cfgRef crmCfgRef [] "E1" rsWithE1 (by decide)⟩

lemma cacheLookup_foldl_no_match (items : List WItem) (field key : String)
    (acc : Option String) (h : eventMatches items field key = []) :
    items.foldl
      (fun acc i => if fdGet i.fieldData field == some (FVal.s key) then some i.id else acc)
      acc = acc := by
  induction items generalizing acc with
  | nil => rfl
  | cons i l ih =>
    unfold eventMatches at h
    rw [List.filter_cons] at h
    by_cases hp : (fdGet i.fieldData field == some (FVal.s key)) = true
    · rw [if_pos hp] at h
      cases h
    · rw [if_neg hp] at h
      have hp' : (fdGet i.fieldData field == some (FVal.s key)) = false := by
        simpa using hp
      simp only [List.foldl_cons, hp', Bool.false_eq_true, if_false]
      exact ih acc h

lemma cacheLookup_eq_none (items : List WItem) (field key : String)
    (h : eventMatches items field key = []) :
    cacheLookup items field key = none :=
  cacheLookup_foldl_no_match items field key none h

lemma cacheLookup_some_mem (items : List WItem) (field key : String) :
    ∀ (acc res : Option String),
      items.foldl
        (fun acc i => if fdGet i.fieldData field == some (FVal.s key) then some i.id else acc)
        acc = res →
      res = acc ∨ ∃ i, i ∈ items ∧ (fdGet i.fieldData field == some (FVal.s key)) = true ∧
        res = some i.id := by
  induction items with
  | nil => exact fun acc res h => Or.inl h.symm
  | cons i l ih =>
    intro acc res h
    rw [List.foldl_cons] at h
    rcases ih _ res h with he | ⟨j, hj, hpj, hres⟩
    · by_cases hp : (fdGet i.fieldData field == some (FVal.s key)) = true
      · rw [if_pos hp] at he
        exact Or.inr ⟨i, List.mem_cons_self i l, hp, he⟩
      · rw [if_neg hp] at he
        exact Or.inl he
    · exact Or.inr ⟨j, List.mem_cons_of_mem i hj, hpj, hres⟩

/-- After deleting the item the cache lookup resolved to, and provided the
identity was carried by at most one item, no item matches any more. -/
lemma cacheLookup_after_delete (items : List WItem) (field key wid : String)
    (hU : (eventMatches items field key).length ≤ 1)
    (h : cacheLookup items field key = some wid) :
    cacheLookup (items.filter fun i => !(i.id == wid)) field key = none := by
  rcases cacheLookup_some_mem items field key none (some wid) h with he | ⟨i, hmem, hpred, hres⟩
  · cases he
  · apply cacheLookup_eq_none
    have hcomm : eventMatches (items.filter fun i => !(i.id == wid)) field key
        = (eventMatches items field key).filter (fun i => !(i.id == wid)) := by
      unfold eventMatches
      rw [List.filter_filter, List.filter_filter]
      apply List.filter_congr
      intro a _
      rw [Bool.and_comm]
    have hi_mem : i ∈ eventMatches items field key :=
      List.mem_filter.mpr ⟨hmem, hpred⟩
    have hsing : eventMatches items field key = [i] := by
      cases hm : eventMatches items field key with
      | nil => rw [hm] at hi_mem; cases hi_mem
      | cons a t =>
        cases t with
        | nil =>
          rw [hm] at hi_mem
          have : i = a := by simpa using hi_mem
          rw [this]
        | cons b t2 =>
          rw [hm] at hU
          simp at hU
    injection hres with hres'
    rw [hcomm, hsing, hres']
    simp

/-- C7: a `Delete` run removes a matching TargetItem outright from the
events collection (or does nothing when none matches), and — provided at
most one item carried the identity — a subsequent Create/Update run for the
same id with the source still absent is a no-op: it finds nothing to
unpublish and leaves the store untouched, appending only reads and the CRM
query to the trace. -/
theorem c7_delete_terminal (cfg : WFConfig) (crmCfg1 crmCfg2 : CrmConfig)
    (crmValue1 crmValue2 : List CrmEvent) (eventId : String) (rs : RunState)
    (h1 : eventId ≠ "")
    (hU : (eventMatches (getColl rs.store (cval cfg.events)) "eventid" eventId).length ≤ 1)
    (h3 : crmConfigured crmCfg2 = true)
    (h4 : crmValue2.filter (fun e => e.m8_eventid == eventId) = []) :
    (syncSingleEvent cfg crmCfg1 crmValue1 eventId "Delete" rs).result = SyncResult.ok ∧
    (∀ wid, cacheLookup (getColl rs.store (cval cfg.events)) "eventid" eventId = some wid →
      syncSingleEvent cfg crmCfg1 crmValue1 eventId "Delete" rs =
        { result := SyncResult.ok,
          state := { store := setColl rs.store (cval cfg.events)
                       ((getColl rs.store (cval cfg.events)).filter fun i => !(i.id == wid)),
                     locks := rs.locks,
                     trace := rs.trace ++ [Action.wfGet (cval cfg.events),
                       Action.wfDelete (cval cfg.events) wid] } } ∧
      syncSingleEvent cfg crmCfg2 crmValue2 eventId "Update"
          (syncSingleEvent cfg crmCfg1 crmValue1 eventId "Delete" rs).state =
        { result := SyncResult.ok,
          state := { store := (syncSingleEvent cfg crmCfg1 crmValue1 eventId "Delete" rs).state.store,
                     locks := (syncSingleEvent cfg crmCfg1 crmValue1 eventId "Delete" rs).state.locks,
                     trace := (syncSingleEvent cfg crmCfg1 crmValue1 eventId "Delete" rs).state.trace
                       ++ [Action.wfGet (cval cfg.locations), Action.wfGet (cval cfg.categories),
                           Action.wfGet (cval cfg.airports), Action.wfGet (cval cfg.events),
                           Action.crmGetEvents [eventId]] } }) ∧
    (cacheLookup (getColl rs.store (cval cfg.events)) "eventid" eventId = none →
      syncSingleEvent cfg crmCfg1 crmValue1 eventId "Delete" rs =
        { result := SyncResult.ok,
          state := { store := rs.store, locks := rs.locks,
                     trace := rs.trace ++ [Action.wfGet (cval cfg.events)] } }) := by
  have hrun := syncSingleEvent_delete_eq cfg crmCfg1 crmValue1 eventId rs h1
  cases hL : cacheLookup (getColl rs.store (cval cfg.events)) "eventid" eventId with
  | none =>
    rw [hL] at hrun
    refine ⟨by rw [hrun], ?_, fun _ => hrun⟩
    intro wid hw
    exact Option.noConfusion hw
  | some wid0 =>
    rw [hL] at hrun
    refine ⟨by rw [hrun], ?_, fun hw => Option.noConfusion hw⟩
    intro wid hw
    cases hw
    have hst1 : syncSingleEvent cfg crmCfg1 crmValue1 eventId "Delete" rs =
        { result := SyncResult.ok,
          state := { store := setColl rs.store (cval cfg.events)
                       ((getColl rs.store (cval cfg.events)).filter fun i => !(i.id == wid0)),
                     locks := rs.locks,
                     trace := rs.trace ++ [Action.wfGet (cval cfg.events),
                       Action.wfDelete (cval cfg.events) wid0] } } := by
      rw [hrun]
      simp [doDelete, List.append_assoc]
    refine ⟨hst1, ?_⟩
    rw [hst1]
    have hrun2 := syncSingleEvent_absent_eq cfg crmCfg2 crmValue2 eventId "Update"
      { store := setColl rs.store (cval cfg.events)
          ((getColl rs.store (cval cfg.events)).filter fun i => !(i.id == wid0)),
        locks := rs.locks,
        trace := rs.trace ++ [Action.wfGet (cval cfg.events),
          Action.wfDelete (cval cfg.events) wid0] }
      h1 (by decide) h3 h4
    have hL2 : cacheLookup (getColl (setColl rs.store (cval cfg.events)
        ((getColl rs.store (cval cfg.events)).filter fun i => !(i.id == wid0)))
        (cval cfg.events)) "eventid" eventId = none := by
      rw [getColl_setColl]
      exact cacheLookup_after_delete _ _ _ _ hU hL
    rw [hL2] at hrun2
    exact hrun2

/-- Witness for C7: deleting `itemE1` then running an `Update` with the
source absent performs no further write. -/
theorem c7_delete_terminal_witness :
    ("E1" : String) ≠ "" ∧
    (eventMatches (getColl rsWithE1.store (cval cfgRef.events)) "eventid" "E1").length ≤ 1 ∧
    crmConfigured crmCfgRef = true ∧
    ([] : List CrmEvent).filter (fun e => e.m8_eventid == "E1") = [] ∧
    ((syncSingleEvent cfgRef crmCfgRef [] "E1" "Delete" rsWithE1).result = SyncResult.ok ∧
     (∀ wid, cacheLookup (getColl rsWithE1.store (cval cfgRef.events)) "eventid" "E1"
          = some wid →
       syncSingleEvent cfgRef crmCfgRef [] "E1" "Delete" rsWithE1 =
         { result := SyncResult.ok,
           state := { store := setColl rsWithE1.store (cval cfgRef.events)
                        ((getColl rsWithE1.store (cval cfgRef.events)).filter
                          fun i => !(i.id == wid)),
                      locks := rsWithE1.locks,
                      trace := rsWithE1.trace ++ [Action.wfGet (cval cfgRef.events),
                        Action.wfDelete (cval cfgRef.events) wid] } } ∧
       syncSingleEvent cfgRef crmCfgRef [] "E1" "Update"
           (syncSingleEvent cfgRef crmCfgRef [] "E1" "Delete" rsWithE1).state =
         { result := SyncResult.ok,
           state := { store := (syncSingleEvent cfgRef crmCfgRef [] "E1" "Delete" rsWithE1).state.store,
                      locks := (syncSingleEvent cfgRef crmCfgRef [] "E1" "Delete" rsWithE1).state.locks,
                      trace := (syncSingleEvent cfgRef crmCfgRef [] "E1" "Delete" rsWithE1).state.trace
                        ++ [Action.wfGet (cval cfgRef.locations),
                            Action.wfGet (cval cfgRef.categories),
                            Action.wfGet (cval cfgRef.airports),
                            Action.wfGet (cval cfgRef.events),
                            Action.crmGetEvents ["E1"]] } }) ∧
     (cacheLookup (getColl rsWithE1.store (cval cfgRef.events)) "eventid" "E1" = none →
       syncSingleEvent cfgRef crmCfgRef [] "E1" "Delete" rsWithE1 =
         { result := SyncResult.ok,
           state := { store := rsWithE1.store, locks := rsWithE1.locks,
                      trace := rsWithE1.trace
                        ++ [Action.wfGet (cval cfgRef.events)] } })) :=
  ⟨by decide, by decide, by decide, by decide,
    c7_delete_terminal cfgRef crmCfgRef crmCfgRef [] [] "E1" rsWithE1
      (by decide) (by decide) (by decide) (by decide)⟩

/-- C8: on the create path (reached by `syncSingleEvent` when the published
source entity has no matching TargetItem), failing to acquire the
create-lock makes the run return normally with no create — the store, the
lock store and (beyond the recorded failed acquire) the trace are untouched;
and whenever the lock is acquired it is released right after the create
attempt — here the attempt always throws (the line-215 `ReferenceError`),
and the `finally`-modelled release still runs: the trace ends with the
`kv.del` and the key is no longer held, while the error propagates. -/
theorem c8_create_lock_release (eventId : String) (rs : RunState) :
    (rs.locks.contains ("lock:create-event:" ++ eventId) = true →
      createPath eventId rs =
        { result := SyncResult.ok,
          state := { store := rs.store, locks := rs.locks,
                     trace := rs.trace
                       ++ [Action.kvSetNx ("lock:create-event:" ++ eventId) false] } }) ∧
    (rs.locks.contains ("lock:create-event:" ++ eventId) = false →
      (createPath eventId rs).state.trace
          = rs.trace ++ [Action.kvSetNx ("lock:create-event:" ++ eventId) true,
              Action.kvDel ("lock:create-event:" ++ eventId)] ∧
      ((createPath eventId rs).state.locks.contains ("lock:create-event:" ++ eventId))
          = false ∧
      (createPath eventId rs).state.store = rs.store ∧
      (createPath eventId rs).result = SyncResult.err SyncErr.refError) := by
  constructor
  · intro h
    have hm : ("lock:create-event:" ++ eventId) ∈ rs.locks := by simpa using h
    simp [createPath, kvSetNx, hm]
  · intro h
    have hm : ("lock:create-event:" ++ eventId) ∉ rs.locks := by simpa using h
    refine ⟨?_, ?_, ?_, ?_⟩ <;>
      simp [createPath, kvSetNx, kvDel, hm, locks_filter_not_contains]

/-- Witness for C8: with the lock already held the run no-ops; with the lock
free it is acquired, the attempt throws, and the lock is released. -/
theorem c8_create_lock_release_witness :
    (rsLockedE1.locks.contains ("lock:create-event:" ++ "E1") = true ∧
      createPath "E1" rsLockedE1 =
        { result := SyncResult.ok,
          state := { store := rsLockedE1.store, locks := rsLockedE1.locks,
                     trace := rsLockedE1.trace
                       ++ [Action.kvSetNx ("lock:create-event:" ++ "E1") false] } }) ∧
    (rsEmpty.locks.contains ("lock:create-event:" ++ "E1") = false ∧
      ((createPath "E1" rsEmpty).state.trace
          = rsEmpty.trace ++ [Action.kvSetNx ("lock:create-event:" ++ "E1") true,
              Action.kvDel ("lock:create-event:" ++ "E1")] ∧
        ((createPath "E1" rsEmpty).state.locks.contains ("lock:create-event:" ++ "E1"))
            = false ∧
        (createPath "E1" rsEmpty).state.store = rsEmpty.store ∧
        (createPath "E1" rsEmpty).result = SyncResult.err SyncErr.refError)) :=
  ⟨⟨by decide, (c8_create_lock_release "E1" rsLockedE1).1 (by decide)⟩,
    ⟨by decide, (c8_create_lock_release "E1" rsEmpty).2 (by decide)⟩⟩

/-- C9: the reference upsert returns `null` for an empty source id without
touching anything; on a cache hit it issues an update (not a create) to the
cached item followed by a publish, leaves the cache unchanged and returns
the cached id; on a cache miss it creates a new item whose field data
carries the slug derived from `name`, records the new id in the cache,
publishes it, and returns the new id (the collection grows by exactly that
one item). -/
theorem c9_upsert_reference (cache : RefCache)
    (collectionId crmIdFieldSlug crmId name : String) (extra : FieldData) (rs : RunState) :
    (crmId = "" →
      upsertReferenceItem cache collectionId crmIdFieldSlug crmId name extra rs
        = (none, cache, rs)) ∧
    (∀ wid, crmId ≠ "" → cGet cache crmId = some wid →
      (upsertReferenceItem cache collectionId crmIdFieldSlug crmId name extra rs).1
          = some wid ∧
      (upsertReferenceItem cache collectionId crmIdFieldSlug crmId name extra rs).2.1
          = cache ∧
      (upsertReferenceItem cache collectionId crmIdFieldSlug crmId name extra rs).2.2.trace
          = rs.trace ++ [Action.wfUpdate collectionId wid
                ([("name", FVal.s name), ("slug", FVal.s (slugify name)),
                  (crmIdFieldSlug, FVal.s crmId)] ++ extra),
              Action.wfPublish collectionId [wid]]) ∧
    (crmId ≠ "" → cGet cache crmId = none →
      (upsertReferenceItem cache collectionId crmIdFieldSlug crmId name extra rs).1
          = some ("wf" ++ toString rs.store.nextId) ∧
      cGet (upsertReferenceItem cache collectionId crmIdFieldSlug crmId name extra rs).2.1
          crmId = some ("wf" ++ toString rs.store.nextId) ∧
      (upsertReferenceItem cache collectionId crmIdFieldSlug crmId name extra rs).2.2.trace
          = rs.trace ++ [Action.wfCreate collectionId
                ([("name", FVal.s name), ("slug", FVal.s (slugify name)),
                  (crmIdFieldSlug, FVal.s crmId)] ++ extra),
              Action.wfPublish collectionId ["wf" ++ toString rs.store.nextId]] ∧
      (getColl (upsertReferenceItem cache collectionId crmIdFieldSlug crmId name
            extra rs).2.2.store collectionId).length
          = (getColl rs.store collectionId).length + 1 ∧
      (getColl (upsertReferenceItem cache collectionId crmIdFieldSlug crmId name
            extra rs).2.2.store collectionId).getLast?
          = some { id := "wf" ++ toString rs.store.nextId, isDraft := false,
                   isArchived := false, isLive := true,
                   fieldData := [("name", FVal.s name), ("slug", FVal.s (slugify name)),
                     (crmIdFieldSlug, FVal.s crmId)] ++ extra }) := by
  refine ⟨?_, ?_, ?_⟩
  · intro h
    unfold upsertReferenceItem
    rw [if_pos h]
  · intro wid h hc
    unfold upsertReferenceItem
    rw [if_neg h, hc]
    refine ⟨rfl, rfl, ?_⟩
    simp [doPatch, doPublish, List.append_assoc]
  · intro h hc
    unfold upsertReferenceItem
    rw [if_neg h, hc]
    refine ⟨?_, ?_, ?_, ?_, ?_⟩
    · simp [doCreate]
    · simp [doCreate, cGet, cSet]
    · simp [doCreate, doPublish, List.append_assoc]
    · simp [doCreate, doPublish, getColl_setColl]
    · simp only [doCreate, doPublish, getColl_setColl, List.map_append,
        List.map_cons, List.map_nil]
      rw [List.getLast?_concat]
      simp

/-- Witness for C9, at the cache-hit case: `L1` resolves to the cached `w9`
by update + publish, without creating anything. -/
theorem c9_upsert_reference_witness :
    ("L1" : String) ≠ "" ∧ cGet cacheL1 "L1" = some "w9" ∧
    ((upsertReferenceItem cacheL1 "LOC" "eventlocationid" "L1" "Alps" [] rsEmpty).1
        = some "w9" ∧
     (upsertReferenceItem cacheL1 "LOC" "eventlocationid" "L1" "Alps" [] rsEmpty).2.1
        = cacheL1 ∧
     (upsertReferenceItem cacheL1 "LOC" "eventlocationid" "L1" "Alps" [] rsEmpty).2.2.trace
        = rsEmpty.trace ++ [Action.wfUpdate "LOC" "w9"
              ([("name", FVal.s "Alps"), ("slug", FVal.s (slugify "Alps")),
                ("eventlocationid", FVal.s "L1")] ++ []),
            Action.wfPublish "LOC" ["w9"]]) :=
  ⟨by decide, by decide,
    (c9_upsert_reference cacheL1 "LOC" "eventlocationid" "L1" "Alps" [] rsEmpty).2.1 "w9"
      (by decide) (by decide)⟩

end MiddlewareSync

